import Mathlib

/-!
Shallow embedding of `src/app.py` (Flask endpoints `/text-to-speech` and
`/speech-to-text` of the tts-and-stt-endpoints repository).

Bytes are modelled as natural numbers below 256, byte strings as `List Nat`.
The remote OpenAI calls are opaque oracles passed to the handlers as
functions returning `Except`-style results (`.error` models a raised
exception, carrying the exception message and, where the handler uses it,
the `str(type(e))` classification string).

The Python standard library's `base64.b64encode` / `base64.b64decode`
(CPython `binascii`, non-strict mode) are modelled below, since the
`/speech-to-text` handler's behaviour on base64 payloads depends on them.
-/

namespace App

/-- Index 0..63 of the standard base64 alphabet to its character
(`A`-`Z`, `a`-`z`, `0`-`9`, `+`, `/`). -/
def b64char (n : Nat) : Char :=
  if n < 26 then Char.ofNat (65 + n)
  else if n < 52 then Char.ofNat (97 + (n - 26))
  else if n < 62 then Char.ofNat (48 + (n - 52))
  else if n = 62 then '+'
  else '/'

/-- CPython's `table_a2b_base64`: the alphabet index of a character, or
`none` for a character outside the alphabet (such characters are skipped
by the non-strict decoder). -/
def b64index (c : Char) : Option Nat :=
  if 65 ≤ c.toNat ∧ c.toNat ≤ 90 then some (c.toNat - 65)
  else if 97 ≤ c.toNat ∧ c.toNat ≤ 122 then some (c.toNat - 97 + 26)
  else if 48 ≤ c.toNat ∧ c.toNat ≤ 57 then some (c.toNat - 48 + 52)
  else if c = '+' then some 62
  else if c = '/' then some 63
  else none

/-- `base64.b64encode`: bytes to base64 characters, three input bytes per
four output characters, padded with `=`. -/
def b64encode : List Nat → List Char
  | [] => []
  | [a] => [b64char (a / 4), b64char (a % 4 * 16), '=', '=']
  | [a, b] => [b64char (a / 4), b64char (a % 4 * 16 + b / 16), b64char (b % 16 * 4), '=']
  | a :: b :: c :: rest =>
      b64char (a / 4) :: b64char (a % 4 * 16 + b / 16) ::
      b64char (b % 16 * 4 + c / 64) :: b64char (c % 64) :: b64encode rest

/-- Error message raised by CPython when the number of base64 data
characters is congruent to 1 mod 4 (the count itself is elided). -/
def b64errOneMore : String :=
  "Invalid base64-encoded string: number of data characters cannot be 1 more than a multiple of 4"

/-- Error message raised by CPython for a truncated final base64 quad. -/
def b64errPadding : String := "Incorrect padding"

/-- The loop of CPython's `binascii.a2b_base64` in non-strict mode
(the mode used by `base64.b64decode(s)` with default arguments):
`qp` is `quad_pos` (position within the current 4-character group),
`lc` is `leftchar` (bits carried between characters), `pads` counts `=`
characters seen since the last data character.  A `=` increments `pads`
only when `quad_pos >= 2` (the C condition `quad_pos >= 2 && quad_pos +
++pads >= 4` short-circuits) and ends the decode when the group reaches
four; each data character resets `pads` to 0; characters outside the
alphabet are skipped; a dangling group at end of input is an error. -/
def b64decodeAux : List Char → Nat → Nat → Nat → Except String (List Nat)
  | [], qp, _, _ =>
      if qp = 0 then .ok []
      else if qp = 1 then .error b64errOneMore
      else .error b64errPadding
  | ch :: rest, qp, lc, pads =>
      if ch = '=' then
        if 2 ≤ qp then
          if 4 ≤ qp + (pads + 1) then .ok []
          else b64decodeAux rest qp lc (pads + 1)
        else b64decodeAux rest qp lc pads
      else
        match b64index ch with
        | none => b64decodeAux rest qp lc pads
        | some v =>
            if qp = 0 then b64decodeAux rest 1 v 0
            else if qp = 1 then
              (b64decodeAux rest 2 (v % 16) 0).map fun t => (lc * 4 + v / 16) :: t
            else if qp = 2 then
              (b64decodeAux rest 3 (v % 4) 0).map fun t => (lc * 16 + v / 4) :: t
            else
              (b64decodeAux rest 0 0 0).map fun t => (lc * 64 + v) :: t

/-- `str(type(e))` of the `binascii.Error` raised by the base64 parsing
loop (Python renders it as `<class 'binascii.Error'>`; quotes elided). -/
def binasciiErrorType : String := "<class binascii.Error>"

/-- `str(type(e))` of a `ValueError` (Python renders it as
`<class 'ValueError'>`; quotes elided). -/
def valueErrorType : String := "<class ValueError>"

/-- `base64.b64decode` on a character string: `.error` models the raised
exception as a (message, `str(type(e))`) pair.  Python first encodes the
`str` argument to ASCII (`base64._bytes_from_decode_data`), raising
`ValueError` with this exact message on any non-ASCII character before
any parsing; only then does `binascii.a2b_base64` run, whose failures are
`binascii.Error`. -/
def b64decode (s : List Char) : Except (String × String) (List Nat) :=
  if s.all (fun c => decide (c.toNat ≤ 127)) then
    match b64decodeAux s 0 0 0 with
    | .ok bs => .ok bs
    | .error m => .error (m, binasciiErrorType)
  else
    .error ("string argument should contain only ASCII characters", valueErrorType)

lemma b64char_spec : ∀ x : Nat, x < 64 → b64index (b64char x) = some x ∧ b64char x ≠ '=' := by
  decide

lemma b64decodeAux_data (x : Nat) (hx : x < 64) (rest : List Char) (qp lc pads : Nat) :
    b64decodeAux (b64char x :: rest) qp lc pads =
      if qp = 0 then b64decodeAux rest 1 x 0
      else if qp = 1 then
        (b64decodeAux rest 2 (x % 16) 0).map fun t => (lc * 4 + x / 16) :: t
      else if qp = 2 then
        (b64decodeAux rest 3 (x % 4) 0).map fun t => (lc * 16 + x / 4) :: t
      else (b64decodeAux rest 0 0 0).map fun t => (lc * 64 + x) :: t := by
  obtain ⟨hidx, hne⟩ := b64char_spec x hx
  simp [b64decodeAux, hidx, hne]

lemma b64decodeAux_data0 (x : Nat) (hx : x < 64) (rest : List Char) (lc pads : Nat) :
    b64decodeAux (b64char x :: rest) 0 lc pads = b64decodeAux rest 1 x 0 := by
  rw [b64decodeAux_data x hx]; simp

lemma b64decodeAux_data1 (x : Nat) (hx : x < 64) (rest : List Char) (lc pads : Nat) :
    b64decodeAux (b64char x :: rest) 1 lc pads =
      (b64decodeAux rest 2 (x % 16) 0).map fun t => (lc * 4 + x / 16) :: t := by
  rw [b64decodeAux_data x hx]; simp

lemma b64decodeAux_data2 (x : Nat) (hx : x < 64) (rest : List Char) (lc pads : Nat) :
    b64decodeAux (b64char x :: rest) 2 lc pads =
      (b64decodeAux rest 3 (x % 4) 0).map fun t => (lc * 16 + x / 4) :: t := by
  rw [b64decodeAux_data x hx]; simp

lemma b64decodeAux_data3 (x : Nat) (hx : x < 64) (rest : List Char) (lc pads : Nat) :
    b64decodeAux (b64char x :: rest) 3 lc pads =
      (b64decodeAux rest 0 0 0).map fun t => (lc * 64 + x) :: t := by
  rw [b64decodeAux_data x hx]; simp

lemma b64char_ascii : ∀ x : Nat, x < 64 → (b64char x).toNat ≤ 127 := by
  decide

lemma b64encode_ascii (bs : List Nat) (hbs : ∀ x ∈ bs, x < 256) :
    ∀ c ∈ b64encode bs, c.toNat ≤ 127 := by
  induction bs using b64encode.induct with
  | case1 => simp [b64encode]
  | case2 a =>
      have ha : a < 256 := hbs a (by simp)
      intro c hc
      simp only [b64encode, List.mem_cons, List.not_mem_nil, or_false] at hc
      rcases hc with rfl | rfl | rfl | rfl
      · exact b64char_ascii _ (by omega)
      · exact b64char_ascii _ (by omega)
      · decide
      · decide
  | case3 a b =>
      have ha : a < 256 := hbs a (by simp)
      have hb : b < 256 := hbs b (by simp)
      intro c hc
      simp only [b64encode, List.mem_cons, List.not_mem_nil, or_false] at hc
      rcases hc with rfl | rfl | rfl | rfl
      · exact b64char_ascii _ (by omega)
      · exact b64char_ascii _ (by omega)
      · exact b64char_ascii _ (by omega)
      · decide
  | case4 a b c rest ih =>
      have ha : a < 256 := hbs a (by simp)
      have hb : b < 256 := hbs b (by simp)
      have hc256 : c < 256 := hbs c (by simp)
      have hrest : ∀ x ∈ rest, x < 256 := fun x hx => hbs x (by simp [hx])
      intro ch hch
      simp only [b64encode, List.mem_cons] at hch
      rcases hch with rfl | rfl | rfl | rfl | hmem
      · exact b64char_ascii _ (by omega)
      · exact b64char_ascii _ (by omega)
      · exact b64char_ascii _ (by omega)
      · exact b64char_ascii _ (by omega)
      · exact ih hrest ch hmem

/-- The parsing loop inverts encoding: on canonical encoder output the
modelled `a2b_base64` loop returns exactly the original bytes. -/
theorem b64decodeAux_b64encode (bs : List Nat) (hbs : ∀ x ∈ bs, x < 256) :
    b64decodeAux (b64encode bs) 0 0 0 = .ok bs := by
  induction bs using b64encode.induct with
  | case1 => simp [b64encode, b64decodeAux]
  | case2 a =>
      have ha : a < 256 := hbs a (by simp)
      simp only [b64encode]
      rw [b64decodeAux_data0 (a / 4) (by omega)]
      rw [b64decodeAux_data1 (a % 4 * 16) (by omega)]
      simp [b64decodeAux, Except.map]
      omega
  | case3 a b =>
      have ha : a < 256 := hbs a (by simp)
      have hb : b < 256 := hbs b (by simp)
      simp only [b64encode]
      rw [b64decodeAux_data0 (a / 4) (by omega)]
      rw [b64decodeAux_data1 (a % 4 * 16 + b / 16) (by omega)]
      rw [b64decodeAux_data2 (b % 16 * 4) (by omega)]
      simp [b64decodeAux, Except.map]
      omega
  | case4 a b c rest ih =>
      have ha : a < 256 := hbs a (by simp)
      have hb : b < 256 := hbs b (by simp)
      have hc : c < 256 := hbs c (by simp)
      have hrest : ∀ x ∈ rest, x < 256 := fun x hx => hbs x (by simp [hx])
      simp only [b64encode]
      rw [b64decodeAux_data0 (a / 4) (by omega)]
      rw [b64decodeAux_data1 (a % 4 * 16 + b / 16) (by omega)]
      rw [b64decodeAux_data2 (b % 16 * 4 + c / 64) (by omega)]
      rw [b64decodeAux_data3 (c % 64) (by omega)]
      rw [ih hrest]
      simp [Except.map]
      omega

/-- Decoding inverts encoding: the round-trip property of the modelled
CPython base64 pair, for genuine byte sequences.  Encoder output is all
ASCII, so the `ValueError` pre-check never fires on it. -/
theorem b64decode_b64encode (bs : List Nat) (hbs : ∀ x ∈ bs, x < 256) :
    b64decode (b64encode bs) = .ok bs := by
  have hall : (b64encode bs).all (fun c => decide (c.toNat ≤ 127)) = true :=
    List.all_eq_true.mpr fun c hc => decide_eq_true (b64encode_ascii bs hbs c hc)
  unfold b64decode
  rw [if_pos hall, b64decodeAux_b64encode bs hbs]

/-! ### The `/text-to-speech` handler (`text_to_speech` in `src/app.py`)

`request.json` is modelled as `Option TTSBody`: `none` covers a missing or
falsy JSON body (`not data`), `some` a JSON object whose relevant fields
are the optional strings `text` and `voice`.  The remote
`openai.audio.speech.create` call is an oracle `synth : voice → text →
Except message bytes`, `.error` modelling a raised exception whose
`str(e)` is the message.  The outcome records the HTTP response and the
`(voice, input)` pair passed to the remote call (`none` when the remote
service was not called). -/

/-- The JSON body of a `/text-to-speech` request: `none` in a field means
the key is absent. -/
structure TTSBody where
  text : Option String
  voice : Option String
  deriving DecidableEq

/-- Observable outcome of the `/text-to-speech` handler: HTTP status, the
`send_file` attributes on the success path, the JSON `error` field on the
failure paths, and the argument pair of the remote synthesis call. -/
structure TTSOutcome where
  status : Nat
  content : Option (List Nat)
  mimetype : Option String
  downloadName : Option String
  asAttachment : Bool
  errorField : Option String
  remoteCall : Option (String × String)
  deriving DecidableEq

/-- `text_to_speech` from `src/app.py` lines 34-78.  The literal Python
message for the 400 response is `Missing 'text' parameter` (quotes around
`text` elided here).  `if not data or 'text' not in data` returns 400
exactly when the body is missing/falsy or has no `text` key; otherwise
`voice = data.get('voice', 'alloy')` and the remote service is called. -/
def text_to_speech (synth : String → String → Except String (List Nat))
    (body : Option TTSBody) : TTSOutcome :=
  match body with
  | none =>
      { status := 400, content := none, mimetype := none, downloadName := none,
        asAttachment := false, errorField := some "Missing text parameter",
        remoteCall := none }
  | some data =>
      match data.text with
      | none =>
          { status := 400, content := none, mimetype := none, downloadName := none,
            asAttachment := false, errorField := some "Missing text parameter",
            remoteCall := none }
      | some text =>
          let voice := data.voice.getD "alloy"
          match synth voice text with
          | .ok audio =>
              { status := 200, content := some audio, mimetype := some "audio/mpeg",
                downloadName := some "speech.mp3", asAttachment := true,
                errorField := none, remoteCall := some (voice, text) }
          | .error e =>
              { status := 500, content := none, mimetype := none, downloadName := none,
                asAttachment := false, errorField := some e,
                remoteCall := some (voice, text) }

/-! ### The `/speech-to-text` handler (`speech_to_text` in `src/app.py`)

The handler's `try` body is modelled as a function to an intermediate
record (`STTMid`): the response produced by the body or by the `except`
clause, together with the resource state (`temp_filename` assigned, temp
file existing on disk, read handle from `open(temp_filename, 'rb')` open)
at the moment control transfers to `finally`.  `stt_finally` then applies
the `finally` clause to that state.  Failure of the temp-file write
(`audio_file.save` / `temp_file.write`) is injectable through the
environment; the remote `openai.audio.transcriptions.create` call is an
oracle from the file's bytes to `Except (message × classification)
transcript`, where the classification models `str(type(e))`. -/

/-- The JSON body of a `/speech-to-text` request (base64 variant). -/
structure STTBody where
  audio_base64 : Option (List Char)
  file_type : Option String

/-- A `/speech-to-text` request: the optional multipart field
`audio_file` (filename and uploaded bytes) and the optional JSON body. -/
structure STTRequest where
  audioFile : Option (String × List Nat)
  jsonBody : Option STTBody

/-- Environment of one `/speech-to-text` request: whether writing the
audio bytes to the temp file raises (and with what message and
`str(type(e))`), and the remote transcription oracle. -/
structure STTEnv where
  writeFail : Option (String × String)
  transcribe : List Nat → Except (String × String) String

/-- Resource state of the handler at the moment the `finally` clause
runs: is the local `temp_filename` set to a path, does that temp file
exist on disk, is the `open(temp_filename, 'rb')` handle open. -/
structure HandlerState where
  tempFilenameSet : Bool
  tempExists : Bool
  handleOpen : Bool
  deriving DecidableEq

/-- Intermediate result of the handler's `try` body plus `except` clause:
response fields, the bytes passed to the remote call (`none` when it was
not called), the bytes successfully written to the temp file, and the
resource state handed to `finally`. -/
structure STTMid where
  state : HandlerState
  status : Nat
  textField : Option String
  errorField : Option String
  typeField : Option String
  remoteCalled : Option (List Nat)
  written : Option (List Nat)

/-- Observable outcome of the `/speech-to-text` handler after `finally`:
the JSON response fields, the remote-call record, the bytes written to
the temp file, and whether the temp file / read handle survive. -/
structure STTOutcome where
  status : Nat
  textField : Option String
  errorField : Option String
  typeField : Option String
  remoteCalled : Option (List Nat)
  written : Option (List Nat)
  tempExistsAfter : Bool
  handleOpenAfter : Bool
  deriving DecidableEq

/-- The 400 response of `speech_to_text` (line 123); the literal Python
message is `No audio file provided. Send a form with 'audio_file' or JSON
with 'audio_base64'` (quotes around the field names elided).  No temp
file has been created on this path. -/
def sttValidationFailure : STTMid :=
  { state := ⟨false, false, false⟩, status := 400, textField := none,
    errorField := some "No audio file provided. Send a form with audio_file or JSON with audio_base64",
    typeField := none, remoteCalled := none, written := none }

/-- Lines 125-140: the temp file holds `bytes`, `open(temp_filename,
'rb')` has succeeded, and the remote transcription service is called.  On
success the handle is closed (line 133) and `{"text": transcript}` is
returned; on exception the `except` clause returns 500 with the message
and classification, the handle still open. -/
def stt_after_materialize (env : STTEnv) (bytes : List Nat) : STTMid :=
  match env.transcribe bytes with
  | .ok t =>
      { state := ⟨true, true, false⟩, status := 200, textField := some t,
        errorField := none, typeField := none, remoteCalled := some bytes,
        written := some bytes }
  | .error (m, cls) =>
      { state := ⟨true, true, true⟩, status := 500, textField := none,
        errorField := some m, typeField := some cls, remoteCalled := some bytes,
        written := some bytes }

/-- Lines 96-101 / 114-119: `tempfile.NamedTemporaryFile(delete=False)`
creates the temp file and `temp_filename` is assigned inside the `with`
block before the bytes are written.  If the write raises, the `except`
clause produces the 500 response with the file already on disk; otherwise
the file is opened for reading and the remote call follows. -/
def stt_materialize (env : STTEnv) (bytes : List Nat) : STTMid :=
  match env.writeFail with
  | some (m, cls) =>
      { state := ⟨true, true, false⟩, status := 500, textField := none,
        errorField := some m, typeField := some cls, remoteCalled := none,
        written := none }
  | none => stt_after_materialize env bytes

/-- The `try` body of `speech_to_text` (lines 85-140) with the `except`
clause folded in.  Branching follows lines 90, 104 and 121: the multipart
field wins when present; else a JSON body with `audio_base64` is decoded
(a decode exception yields the generic 500, before any temp file
exists); else the 400 validation response. -/
def stt_try_body (env : STTEnv) (req : STTRequest) : STTMid :=
  match req.audioFile with
  | some (_, bytes) => stt_materialize env bytes
  | none =>
      match req.jsonBody with
      | some body =>
          match body.audio_base64 with
          | some s =>
              match b64decode s with
              | .error (m, cls) =>
                  { state := ⟨false, false, false⟩, status := 500, textField := none,
                    errorField := some m, typeField := some cls,
                    remoteCalled := none, written := none }
              | .ok bytes => stt_materialize env bytes
          | none => sttValidationFailure
      | none => sttValidationFailure

/-- The `finally` clause (lines 142-154): close `audio_file` when it is
set (idempotent; afterwards no read handle is open on the temp file in
any case), then `os.unlink(temp_filename)` when `temp_filename` is set
and the file exists. -/
def stt_finally (s : HandlerState) : HandlerState :=
  let s1 := { s with handleOpen := false }
  if s1.tempFilenameSet && s1.tempExists then { s1 with tempExists := false } else s1

/-- `speech_to_text` from `src/app.py` lines 80-154: the `try` body
(with `except`) followed by the `finally` clause. -/
def speech_to_text (env : STTEnv) (req : STTRequest) : STTOutcome :=
  let mid := stt_try_body env req
  let fin := stt_finally mid.state
  { status := mid.status, textField := mid.textField, errorField := mid.errorField,
    typeField := mid.typeField, remoteCalled := mid.remoteCalled,
    written := mid.written, tempExistsAfter := fin.tempExists,
    handleOpenAfter := fin.handleOpen }

/-! ### Helper lemmas and stub oracles for the claims -/

/-- A stub synthesis oracle that always succeeds with a fixed byte string. -/
def stubSynth : String → String → Except String (List Nat) := fun _ _ => .ok [1, 2, 3]

/-- A stub transcription oracle that always succeeds with a fixed transcript. -/
def stubTranscribe : List Nat → Except (String × String) String := fun _ => .ok "hello world"

lemma stt_try_body_state (env : STTEnv) (req : STTRequest) :
    (stt_try_body env req).state.tempFilenameSet = (stt_try_body env req).state.tempExists := by
  rcases req with ⟨af, jb⟩
  unfold stt_try_body stt_materialize stt_after_materialize sttValidationFailure
  rcases af with _ | ⟨f, bytes⟩
  · rcases jb with _ | ⟨ab, ft⟩
    · rfl
    · rcases ab with _ | s
      · rfl
      · dsimp only
        rcases b64decode s with ⟨m, cls⟩ | bytes
        · rfl
        · dsimp only
          rcases env.writeFail with _ | ⟨m, cls⟩
          · dsimp only
            rcases env.transcribe bytes with ⟨m, cls⟩ | t <;> rfl
          · rfl
  · dsimp only
    rcases env.writeFail with _ | ⟨m, cls⟩
    · dsimp only
      rcases env.transcribe bytes with ⟨m, cls⟩ | t <;> rfl
    · rfl

lemma speech_to_text_remoteCalled (env : STTEnv) (req : STTRequest) :
    (speech_to_text env req).remoteCalled = (stt_try_body env req).remoteCalled := rfl

lemma stt_materialize_remote (env : STTEnv) (bytes b : List Nat)
    (h : (stt_materialize env bytes).remoteCalled = some b) :
    bytes = b ∧ stt_materialize env bytes = stt_after_materialize env bytes := by
  obtain ⟨wf, tr⟩ := env
  rcases wf with _ | ⟨m, cls⟩
  · refine ⟨?_, rfl⟩
    unfold stt_materialize stt_after_materialize at h
    dsimp only at h
    generalize tr bytes = r at h
    rcases r with ⟨m, cls⟩ | t <;> dsimp only at h <;> exact Option.some.inj h
  · exact absurd h (by simp [stt_materialize])

lemma stt_try_body_remote (env : STTEnv) (req : STTRequest) (b : List Nat)
    (h : (stt_try_body env req).remoteCalled = some b) :
    stt_try_body env req = stt_after_materialize env b := by
  rcases req with ⟨af, jb⟩
  unfold stt_try_body at h ⊢
  rcases af with _ | ⟨f, bytes⟩
  · rcases jb with _ | ⟨ab, ft⟩
    · simp [sttValidationFailure] at h
    · rcases ab with _ | s
      · simp [sttValidationFailure] at h
      · dsimp only at h ⊢
        generalize b64decode s = r at h ⊢
        rcases r with ⟨m, cls⟩ | bytes
        · simp at h
        · obtain ⟨rfl, heq⟩ := stt_materialize_remote env bytes b h
          exact heq
  · dsimp only at h ⊢
    obtain ⟨rfl, heq⟩ := stt_materialize_remote env bytes b h
    exact heq

/-- A stub transcription oracle that always raises. -/
def stubTranscribeErr : List Nat → Except (String × String) String :=
  fun _ => .error ("boom", "<class Exception>")

/-! ### The claims -/

/-- C1 counterexample: a `/text-to-speech` request whose JSON body has
`text` present but equal to the empty string is not answered with 400
and the remote synthesis service is called, refuting the claim for the
`text = ""` case (the code only checks `not data or 'text' not in
data`). -/
theorem c1_counterexample :
    ¬ ((text_to_speech stubSynth (some ⟨some "", none⟩)).status = 400 ∧
       (text_to_speech stubSynth (some ⟨some "", none⟩)).errorField.isSome = true ∧
       (text_to_speech stubSynth (some ⟨some "", none⟩)).remoteCall = none) := by
  decide

/-- C1 (amended): for every `/text-to-speech` request whose JSON body is
missing or falsy, or has no `text` key, the handler returns 400 with an
`error` field and the remote synthesis service is not called.  (A
present-but-empty `text` is not rejected; see the counterexample.) -/
theorem c1_missing_text_400 (synth : String → String → Except String (List Nat))
    (body : Option TTSBody)
    (h : body = none ∨ ∃ d, body = some d ∧ d.text = none) :
    (text_to_speech synth body).status = 400 ∧
    (text_to_speech synth body).errorField.isSome = true ∧
    (text_to_speech synth body).remoteCall = none := by
  rcases h with rfl | ⟨d, rfl, hd⟩
  · exact ⟨rfl, rfl, rfl⟩
  · obtain ⟨dt, dv⟩ := d
    dsimp only at hd
    subst hd
    exact ⟨rfl, rfl, rfl⟩

/-- C1 witness: the amended theorem at a concrete body with a `voice`
key but no `text` key. -/
theorem c1_missing_text_400_witness :
    (text_to_speech stubSynth (some ⟨none, some "nova"⟩)).status = 400 ∧
    (text_to_speech stubSynth (some ⟨none, some "nova"⟩)).errorField.isSome = true ∧
    (text_to_speech stubSynth (some ⟨none, some "nova"⟩)).remoteCall = none :=
  c1_missing_text_400 stubSynth (some ⟨none, some "nova"⟩) (Or.inr ⟨⟨none, some "nova"⟩, rfl, rfl⟩)

/-- C2: on every exit path of `speech_to_text` (success, validation 400,
base64-decode failure, temp-file write failure, remote-call failure) no
temporary file survives the handler and no read handle on it remains
open. -/
theorem c2_no_resource_leak (env : STTEnv) (req : STTRequest) :
    (speech_to_text env req).tempExistsAfter = false ∧
    (speech_to_text env req).handleOpenAfter = false := by
  have h := stt_try_body_state env req
  show (stt_finally (stt_try_body env req).state).tempExists = false ∧
       (stt_finally (stt_try_body env req).state).handleOpen = false
  generalize (stt_try_body env req).state = s at h ⊢
  obtain ⟨tfs, te, ho⟩ := s
  dsimp only at h
  subst h
  unfold stt_finally
  cases tfs <;> simp

/-- C3: a `/speech-to-text` request with neither the multipart
`audio_file` field nor a JSON `audio_base64` field is answered 400 with
an `error` field and the remote transcription service is not called. -/
theorem c3_no_audio_400 (env : STTEnv) (req : STTRequest)
    (h1 : req.audioFile = none)
    (h2 : ∀ b, req.jsonBody = some b → b.audio_base64 = none) :
    (speech_to_text env req).status = 400 ∧
    (speech_to_text env req).errorField.isSome = true ∧
    (speech_to_text env req).remoteCalled = none := by
  obtain ⟨af, jb⟩ := req
  dsimp only at h1
  subst h1
  rcases jb with _ | ⟨ab, ft⟩
  · exact ⟨rfl, rfl, rfl⟩
  · have hab := h2 ⟨ab, ft⟩ rfl
    dsimp only at hab
    subst hab
    exact ⟨rfl, rfl, rfl⟩

/-- C3 witness: the theorem at the concrete empty request. -/
theorem c3_no_audio_400_witness :
    (speech_to_text ⟨none, stubTranscribe⟩ ⟨none, none⟩).status = 400 ∧
    (speech_to_text ⟨none, stubTranscribe⟩ ⟨none, none⟩).errorField.isSome = true ∧
    (speech_to_text ⟨none, stubTranscribe⟩ ⟨none, none⟩).remoteCalled = none :=
  c3_no_audio_400 ⟨none, stubTranscribe⟩ ⟨none, none⟩ rfl
    (fun _ hb => Option.noConfusion hb)

/-- C4: for a body with `text` present, when the remote synthesis call
returns `audio`, the handler responds 200 with MIME type `audio/mpeg`,
attachment filename `speech.mp3`, and body exactly `audio`. -/
theorem c4_tts_success (synth : String → String → Except String (List Nat))
    (d : TTSBody) (t : String) (audio : List Nat)
    (ht : d.text = some t)
    (hs : synth (d.voice.getD "alloy") t = .ok audio) :
    (text_to_speech synth (some d)).status = 200 ∧
    (text_to_speech synth (some d)).content = some audio ∧
    (text_to_speech synth (some d)).mimetype = some "audio/mpeg" ∧
    (text_to_speech synth (some d)).downloadName = some "speech.mp3" ∧
    (text_to_speech synth (some d)).asAttachment = true := by
  obtain ⟨dt, dv⟩ := d
  dsimp only at ht hs
  subst ht
  unfold text_to_speech
  dsimp only
  rw [hs]
  exact ⟨rfl, rfl, rfl, rfl, rfl⟩

/-- C4 witness: the theorem at a concrete body and stub oracle. -/
theorem c4_tts_success_witness :
    (text_to_speech stubSynth (some ⟨some "hi", some "nova"⟩)).status = 200 ∧
    (text_to_speech stubSynth (some ⟨some "hi", some "nova"⟩)).content = some [1, 2, 3] ∧
    (text_to_speech stubSynth (some ⟨some "hi", some "nova"⟩)).mimetype = some "audio/mpeg" ∧
    (text_to_speech stubSynth (some ⟨some "hi", some "nova"⟩)).downloadName = some "speech.mp3" ∧
    (text_to_speech stubSynth (some ⟨some "hi", some "nova"⟩)).asAttachment = true :=
  c4_tts_success stubSynth ⟨some "hi", some "nova"⟩ "hi" [1, 2, 3] rfl rfl

/-- C5: a base64 request built from arbitrary bytes has exactly those
bytes written to the temporary file and handed to the remote
transcription service: the handler's decode inverts the client's
encode. -/
theorem c5_base64_roundtrip (tr : List Nat → Except (String × String) String)
    (ft : Option String) (bytes : List Nat) (h : ∀ x ∈ bytes, x < 256) :
    (speech_to_text ⟨none, tr⟩ ⟨none, some ⟨some (b64encode bytes), ft⟩⟩).written
      = some bytes ∧
    (speech_to_text ⟨none, tr⟩ ⟨none, some ⟨some (b64encode bytes), ft⟩⟩).remoteCalled
      = some bytes := by
  have hdec := b64decode_b64encode bytes h
  unfold speech_to_text stt_try_body
  dsimp only
  rw [hdec]
  unfold stt_materialize stt_after_materialize
  dsimp only
  generalize tr bytes = r
  rcases r with ⟨m, cls⟩ | t <;> exact ⟨rfl, rfl⟩

/-- C5 witness: the theorem at the bytes of `"abc"`. -/
theorem c5_base64_roundtrip_witness :
    (speech_to_text ⟨none, stubTranscribe⟩
        ⟨none, some ⟨some (b64encode [97, 98, 99]), some "wav"⟩⟩).written
      = some [97, 98, 99] ∧
    (speech_to_text ⟨none, stubTranscribe⟩
        ⟨none, some ⟨some (b64encode [97, 98, 99]), some "wav"⟩⟩).remoteCalled
      = some [97, 98, 99] :=
  c5_base64_roundtrip stubTranscribe (some "wav") [97, 98, 99] (by decide)

/-- C6: with `text` present the remote synthesis service receives the
request's `voice` when present and `alloy` when absent; there is no
local check against the voice enumeration, any string passes through
unchanged. -/
theorem c6_voice_passthrough (synth : String → String → Except String (List Nat))
    (d : TTSBody) (t : String) (ht : d.text = some t) :
    (text_to_speech synth (some d)).remoteCall = some (d.voice.getD "alloy", t) := by
  obtain ⟨dt, dv⟩ := d
  dsimp only at ht ⊢
  subst ht
  unfold text_to_speech
  dsimp only
  generalize synth (dv.getD "alloy") t = r
  rcases r with e | audio <;> rfl

/-- C6 witness: an unrecognized voice string is passed through to the
remote call unchanged. -/
theorem c6_voice_passthrough_witness :
    (text_to_speech stubSynth (some ⟨some "hi", some "not-a-known-voice"⟩)).remoteCall =
      some ("not-a-known-voice", "hi") :=
  c6_voice_passthrough stubSynth ⟨some "hi", some "not-a-known-voice"⟩ "hi" rfl

/-- C7: whenever the remote transcription service is called on bytes `b`
and returns transcript `t`, the handler responds 200 with JSON body
`text = t` (and the temporary file is gone afterwards). -/
theorem c7_transcript_ok (env : STTEnv) (req : STTRequest) (b : List Nat) (t : String)
    (hrc : (speech_to_text env req).remoteCalled = some b)
    (htr : env.transcribe b = .ok t) :
    (speech_to_text env req).status = 200 ∧
    (speech_to_text env req).textField = some t ∧
    (speech_to_text env req).tempExistsAfter = false := by
  rw [speech_to_text_remoteCalled] at hrc
  have heq := stt_try_body_remote env req b hrc
  unfold speech_to_text
  dsimp only
  rw [heq]
  unfold stt_after_materialize
  rw [htr]
  exact ⟨rfl, rfl, rfl⟩

/-- C7 witness: the specification's own example, base64 of `"abc"` with
file type `wav` and a stubbed remote call returning `hello world`. -/
theorem c7_transcript_ok_witness :
    (speech_to_text ⟨none, stubTranscribe⟩
        ⟨none, some ⟨some (b64encode [97, 98, 99]), some "wav"⟩⟩).status = 200 ∧
    (speech_to_text ⟨none, stubTranscribe⟩
        ⟨none, some ⟨some (b64encode [97, 98, 99]), some "wav"⟩⟩).textField
      = some "hello world" ∧
    (speech_to_text ⟨none, stubTranscribe⟩
        ⟨none, some ⟨some (b64encode [97, 98, 99]), some "wav"⟩⟩).tempExistsAfter = false :=
  c7_transcript_ok ⟨none, stubTranscribe⟩
    ⟨none, some ⟨some (b64encode [97, 98, 99]), some "wav"⟩⟩ [97, 98, 99] "hello world"
    rfl rfl

/-- C8: whenever the remote transcription call raises with message `m`
and classification `cls`, the handler responds 500 with JSON fields
`error = m` and `type = cls`. -/
theorem c8_remote_error_500 (env : STTEnv) (req : STTRequest) (b : List Nat) (m cls : String)
    (hrc : (speech_to_text env req).remoteCalled = some b)
    (htr : env.transcribe b = .error (m, cls)) :
    (speech_to_text env req).status = 500 ∧
    (speech_to_text env req).errorField = some m ∧
    (speech_to_text env req).typeField = some cls := by
  rw [speech_to_text_remoteCalled] at hrc
  have heq := stt_try_body_remote env req b hrc
  unfold speech_to_text
  dsimp only
  rw [heq]
  unfold stt_after_materialize
  rw [htr]
  exact ⟨rfl, rfl, rfl⟩

/-- C8 witness: a multipart upload with a remote call that raises. -/
theorem c8_remote_error_500_witness :
    (speech_to_text ⟨none, stubTranscribeErr⟩ ⟨some ("a.wav", [1, 2]), none⟩).status = 500 ∧
    (speech_to_text ⟨none, stubTranscribeErr⟩ ⟨some ("a.wav", [1, 2]), none⟩).errorField
      = some "boom" ∧
    (speech_to_text ⟨none, stubTranscribeErr⟩ ⟨some ("a.wav", [1, 2]), none⟩).typeField
      = some "<class Exception>" :=
  c8_remote_error_500 ⟨none, stubTranscribeErr⟩ ⟨some ("a.wav", [1, 2]), none⟩ [1, 2]
    "boom" "<class Exception>" rfl rfl

/-- C9: when the multipart `audio_file` field is present, the handler
behaves identically whatever the JSON body holds (the base64 payload is
ignored), the request is not answered 400, and (when the temp-file write
succeeds) the uploaded bytes are what reaches the remote service. -/
theorem c9_multipart_precedence (env : STTEnv)
    (tr : List Nat → Except (String × String) String)
    (f : String) (bytes : List Nat) (jb : Option STTBody) :
    speech_to_text env ⟨some (f, bytes), jb⟩ = speech_to_text env ⟨some (f, bytes), none⟩ ∧
    (speech_to_text env ⟨some (f, bytes), jb⟩).status ≠ 400 ∧
    (speech_to_text ⟨none, tr⟩ ⟨some (f, bytes), jb⟩).remoteCalled = some bytes := by
  refine ⟨rfl, ?_, ?_⟩
  · obtain ⟨wf, tr'⟩ := env
    unfold speech_to_text stt_try_body stt_materialize stt_after_materialize
    dsimp only
    rcases wf with _ | ⟨m, cls⟩
    · dsimp only
      generalize tr' bytes = r
      rcases r with ⟨m, cls⟩ | t <;> simp
    · simp
  · unfold speech_to_text stt_try_body stt_materialize stt_after_materialize
    dsimp only
    generalize tr bytes = r
    rcases r with ⟨m, cls⟩ | t <;> rfl

/-- C10: a JSON request whose `audio_base64` does not decode (the decode
raises, whether a `binascii.Error` from the parsing loop or the
`ValueError` from the ASCII pre-check) is answered 500, not 400, with the
exception message in `error` and its `str(type(e))` classification in
`type`, and the remote transcription service is not called. -/
theorem c10_invalid_base64_500 (env : STTEnv) (ft : Option String) (s : List Char)
    (m cls : String) (hdec : b64decode s = .error (m, cls)) :
    (speech_to_text env ⟨none, some ⟨some s, ft⟩⟩).status = 500 ∧
    (speech_to_text env ⟨none, some ⟨some s, ft⟩⟩).errorField = some m ∧
    (speech_to_text env ⟨none, some ⟨some s, ft⟩⟩).typeField = some cls ∧
    (speech_to_text env ⟨none, some ⟨some s, ft⟩⟩).remoteCalled = none := by
  unfold speech_to_text stt_try_body
  dsimp only
  rw [hdec]
  exact ⟨rfl, rfl, rfl, rfl⟩

/-- C10 witness: the single character `a` is not decodable base64 (one
data character dangling, a `binascii.Error`), so the handler answers 500
without calling the remote service. -/
theorem c10_invalid_base64_500_witness :
    (speech_to_text ⟨none, stubTranscribe⟩ ⟨none, some ⟨some ['a'], some "mp3"⟩⟩).status = 500 ∧
    (speech_to_text ⟨none, stubTranscribe⟩ ⟨none, some ⟨some ['a'], some "mp3"⟩⟩).errorField
      = some b64errOneMore ∧
    (speech_to_text ⟨none, stubTranscribe⟩ ⟨none, some ⟨some ['a'], some "mp3"⟩⟩).typeField
      = some binasciiErrorType ∧
    (speech_to_text ⟨none, stubTranscribe⟩ ⟨none, some ⟨some ['a'], some "mp3"⟩⟩).remoteCalled
      = none :=
  c10_invalid_base64_500 ⟨none, stubTranscribe⟩ (some "mp3") ['a'] b64errOneMore
    binasciiErrorType rfl

end App
